import Mathlib

/-!
Verification of the WorkLog Pro core: tiered-overtime pay breakdown,
duration math, the clock-in/break/clock-out session state machine, and
the local/remote reconciliation policy.  Definitions are shallow
embeddings of the TypeScript source (`src/utils.ts`,
`src/components/ClockInTimer.tsx`, `src/components/WorkEntryForm.tsx`,
`src/App.tsx`, `src/pantry.ts`).  JavaScript numbers are modelled as
integers (minute and millisecond quantities) and rationals (rates and
intermediate pay values); `Math.round` is modelled as round-half-up
toward positive infinity, its semantics on JS numbers; `Math.floor` of
a quotient of integers is modelled with `Int.fdiv`.  The browser's
local time zone enters only through an explicit offset parameter `tz`
(the value of `getTimezoneOffset()`, minutes to add to local time to
reach UTC).
-/

/-- JavaScript `Math.round`: round half toward positive infinity. -/
def jsRound (x : ℚ) : ℤ := ⌊x + 1/2⌋

/-- Result record of `calculatePayBreakdown` in `src/utils.ts`. -/
structure PayBreakdown where
  regularMinutes : ℤ
  overtimeLevel1Minutes : ℤ
  overtimeLevel2Minutes : ℤ
  totalPay : ℤ
  deriving DecidableEq

/-- Shallow embedding of `calculatePayBreakdown` (src/utils.ts lines 67-97). -/
def calculatePayBreakdown (totalMinutes : ℤ) (hourlyRate : ℚ) : PayBreakdown :=
  let REGULAR_LIMIT : ℤ := 480
  let OT_LEVEL1_LIMIT : ℤ := 120
  let remaining0 := totalMinutes
  let regularMinutes := min remaining0 REGULAR_LIMIT
  let remaining1 := max 0 (remaining0 - regularMinutes)
  let overtimeLevel1Minutes := min remaining1 OT_LEVEL1_LIMIT
  let remaining2 := max 0 (remaining1 - overtimeLevel1Minutes)
  let overtimeLevel2Minutes := remaining2
  let regularPay := ((regularMinutes : ℚ) / 60) * hourlyRate
  let ot1Pay := ((overtimeLevel1Minutes : ℚ) / 60) * hourlyRate * (134/100)
  let ot2Pay := ((overtimeLevel2Minutes : ℚ) / 60) * hourlyRate * (167/100)
  let totalPay := jsRound (regularPay + ot1Pay + ot2Pay)
  { regularMinutes := regularMinutes,
    overtimeLevel1Minutes := overtimeLevel1Minutes,
    overtimeLevel2Minutes := overtimeLevel2Minutes,
    totalPay := totalPay }

/-- Modelled from the spec: the closed-form total-pay formula of spec
section 4.1, written with the spec's `min`-based tier expressions and a
single final rounding, to be compared with the sequential computation
in `calculatePayBreakdown`. -/
def totalPaySpecFormula (totalMinutes : ℤ) (rate : ℚ) : ℤ :=
  let regular := min totalMinutes 480
  let ot1 := min (max 0 (totalMinutes - 480)) 120
  let ot2 := max 0 (totalMinutes - 600)
  jsRound ((regular : ℚ) / 60 * rate
    + (ot1 : ℚ) / 60 * rate * (134/100)
    + (ot2 : ℚ) / 60 * rate * (167/100))

/-- Split a character list at every occurrence of `sep`; structural
counterpart of JavaScript `String.prototype.split` with a one-character
separator, acting on the string's character list. -/
def splitOnChar (sep : Char) : List Char → List (List Char)
  | [] => [[]]
  | c :: rest =>
    let r := splitOnChar sep rest
    if c = sep then [] :: r
    else
      match r with
      | [] => [[c]]
      | h :: t => (c :: h) :: t

/-- Decimal value of a digit list; on all-digit input this agrees with
JavaScript `Number(...)`, and on the empty list it gives 0 as `Number('')`
does.  (Non-digit input, where `Number` yields `NaN`, is outside the
domain the program feeds it: `<input type="time">` values.) -/
def decDigits (cs : List Char) : ℤ :=
  cs.foldl (fun acc c => acc * 10 + ((c.toNat : ℤ) - 48)) 0

/-- The hour/minute pair read from an `HH:mm` string, embedding
`start.split(':').map(Number)` and the `[h, m]` destructuring in
`calculateDurationMinutes`. -/
def parseHM (s : String) : ℤ × ℤ :=
  match splitOnChar ':' s.data with
  | h :: m :: _ => (decDigits h, decDigits m)
  | _ => (0, 0)

/-- Shallow embedding of `calculateDurationMinutes` (src/utils.ts lines
14-30).  The two `Date(0,0,0,H,M)` values differ by exactly
`(endH*60+endM) - (startH*60+startM)` minutes, and the overnight branch
`setDate(getDate()+1)` adds one day (1440 minutes); the final
`Math.floor(diffMs/60000)` is exact because the difference is a whole
number of minutes. -/
def calculateDurationMinutes (start endTime : String) : ℤ :=
  if start = "" ∨ endTime = "" then 0
  else
    let s := parseHM start
    let e := parseHM endTime
    let startMin := s.1 * 60 + s.2
    let endMin := e.1 * 60 + e.2
    let endMin2 := if endMin < startMin then endMin + 1440 else endMin
    endMin2 - startMin

/-- Modelled from the spec: `roundToBillingUnit` (spec section 4.2) rounds
down to the nearest multiple of `unit`.  The source imports
`roundTo30Minutes` from `src/utils.ts`, but no version of that file in
the repository defines it; only its call site in
`src/components/ClockInTimer.tsx` is available. -/
def roundToBillingUnit (rawMinutes unit : ℤ) : ℤ :=
  (rawMinutes.fdiv unit) * unit

/-- Modelled from the spec: the `roundTo30Minutes` helper imported by
`ClockInTimer.tsx`, i.e. `roundToBillingUnit` at the default unit 30. -/
def roundTo30Minutes (rawMinutes : ℤ) : ℤ :=
  roundToBillingUnit rawMinutes 30

/-- Session status, `'working' | 'break'` in `src/pantry.ts` (the word
`break` is reserved in Lean, hence `onBreak`). -/
inductive SessionStatus where
  | working
  | onBreak
  deriving DecidableEq

/-- The `ActiveSession` interface of `src/pantry.ts`. -/
structure ActiveSession where
  status : SessionStatus
  startTime : ℤ
  breakStartTime : Option ℤ
  accumulatedBreakTime : ℤ
  deriving DecidableEq

/-- The `WorkLog` interface of `src/types.ts`, with the optional
`breakStartTime`/`breakEndTime` fields used by `WorkEntryForm.tsx`. -/
structure WorkLog where
  id : String
  date : String
  startTime : String
  endTime : String
  breakMinutes : ℤ
  breakStartTime : Option String
  breakEndTime : Option String
  hourlyRate : ℚ
  totalMinutes : ℤ
  regularMinutes : ℤ
  overtimeLevel1Minutes : ℤ
  overtimeLevel2Minutes : ℤ
  totalPay : ℤ
  note : String
  deriving DecidableEq

/-- Shallow embedding of `handleClockIn` (ClockInTimer.tsx lines 112-123):
the session value saved after the handler runs.  An existing session is
left untouched (`if (session) return`). -/
def handleClockIn (session : Option ActiveSession) (now : ℤ) : Option ActiveSession :=
  match session with
  | some s => some s
  | none =>
    some { status := SessionStatus.working,
           startTime := now,
           breakStartTime := none,
           accumulatedBreakTime := 0 }

/-- Shallow embedding of `handleStartBreak` (ClockInTimer.tsx lines
125-133): the only guard in the source is `if (!session) return`; the
status is not inspected. -/
def handleStartBreak (session : Option ActiveSession) (now : ℤ) : Option ActiveSession :=
  match session with
  | none => none
  | some s => some { s with status := SessionStatus.onBreak, breakStartTime := some now }

/-- Shallow embedding of `handleEndBreak` (ClockInTimer.tsx lines
135-146): guarded by `if (!session || !session.breakStartTime) return`. -/
def handleEndBreak (session : Option ActiveSession) (now : ℤ) : Option ActiveSession :=
  match session with
  | none => none
  | some s =>
    match s.breakStartTime with
    | none => some s
    | some bst =>
      some { s with status := SessionStatus.working,
                    breakStartTime := none,
                    accumulatedBreakTime := s.accumulatedBreakTime + (now - bst) }

/-- The accumulated break of a session after `handleClockOut` folds an
in-progress break in (ClockInTimer.tsx lines 151-156): from BREAK with a
break start recorded, the interval up to the clock-out instant is added. -/
def foldedBreak (s : ActiveSession) (endTime : ℤ) : ℤ :=
  match s.status, s.breakStartTime with
  | SessionStatus.onBreak, some bst => s.accumulatedBreakTime + (endTime - bst)
  | _, _ => s.accumulatedBreakTime

/-- `rawWorkMinutes` as computed at clock-out (ClockInTimer.tsx lines
158-162): wall-clock duration minus the folded break, floored to minutes. -/
def rawWorkMinutesAt (s : ActiveSession) (now : ℤ) : ℤ :=
  ((now - s.startTime) - foldedBreak s now).fdiv 60000

/-- Two-digit zero padding, as `padStart(2, '0')` on the values the
program formats (hours, minutes, months, days). -/
def pad2 (n : ℤ) : String :=
  if n < 10 then "0" ++ toString n else toString n

/-- Four-digit zero padding for the year of an ISO date string. -/
def pad4 (n : ℤ) : String :=
  if n < 10 then "000" ++ toString n
  else if n < 100 then "00" ++ toString n
  else if n < 1000 then "0" ++ toString n
  else toString n

/-- Civil (proleptic Gregorian) date of a day count relative to
1970-01-01, the standard era-based conversion; embeds the calendar
arithmetic the JS `Date`/`toJSON` pair performs. -/
def civilFromDays (z : ℤ) : ℤ × ℤ × ℤ :=
  let z2 := z + 719468
  let era := z2.fdiv 146097
  let doe := z2 - era * 146097
  let yoe := (doe - doe.fdiv 1460 + doe.fdiv 36524 - doe.fdiv 146096).fdiv 365
  let y := yoe + era * 400
  let doy := doe - (365 * yoe + yoe.fdiv 4 - yoe.fdiv 100)
  let mp := (5 * doy + 2).fdiv 153
  let d := doy - (153 * mp + 2).fdiv 5 + 1
  let m := mp + (if mp < 10 then 3 else -9)
  (y + (if m ≤ 2 then 1 else 0), m, d)

/-- The `YYYY-MM-DD` prefix of `new Date(ms).toJSON()`: the UTC calendar
date of an epoch-millisecond instant. -/
def dateStringOfMs (ms : ℤ) : String :=
  let days := ms.fdiv 86400000
  let c := civilFromDays days
  pad4 c.1 ++ "-" ++ pad2 c.2.1 ++ "-" ++ pad2 c.2.2

/-- The local calendar date of instant `ts`, as computed at clock-out
(ClockInTimer.tsx lines 176-178): shift by the time-zone offset, then
take the UTC date of the shifted instant. -/
def localDateString (ts tz : ℤ) : String :=
  dateStringOfMs (ts - tz * 60000)

/-- `HH:mm` of instant `ts` in local time, embedding
`new Date(ts).toTimeString().slice(0, 5)` (ClockInTimer.tsx lines
171-174). -/
def formatTimeStr (ts tz : ℤ) : String :=
  let localMs := ts - tz * 60000
  pad2 ((localMs.fdiv 3600000) % 24) ++ ":" ++ pad2 ((localMs.fdiv 60000) % 60)

/-- Shallow embedding of `handleClockOut` (ClockInTimer.tsx lines
148-199).  The result is the pair (session value saved afterwards,
WorkLog passed to `onAddLog`, if any).  `confirmSave` is the user's
answer to the `window.confirm` prompt shown when the rounded work time
is not positive; `freshId` stands for `crypto.randomUUID()`. -/
def handleClockOut (tz : ℤ) (defaultRate : ℚ) (freshId : String)
    (session : Option ActiveSession) (now : ℤ) (confirmSave : Bool) :
    Option ActiveSession × Option WorkLog :=
  match session with
  | none => (none, none)
  | some s =>
    let finalAccumulatedBreak := foldedBreak s now
    let breakMinutes := finalAccumulatedBreak.fdiv 60000
    let rawWorkMinutes := rawWorkMinutesAt s now
    let actualWorkMinutes := roundTo30Minutes rawWorkMinutes
    if actualWorkMinutes ≤ 0 ∧ confirmSave = false then (some s, none)
    else
      let b := calculatePayBreakdown actualWorkMinutes defaultRate
      (none,
       some { id := freshId,
              date := localDateString s.startTime tz,
              startTime := formatTimeStr s.startTime tz,
              endTime := formatTimeStr now tz,
              breakMinutes := breakMinutes,
              breakStartTime := none,
              breakEndTime := none,
              hourlyRate := defaultRate,
              totalMinutes := actualWorkMinutes,
              regularMinutes := b.regularMinutes,
              overtimeLevel1Minutes := b.overtimeLevel1Minutes,
              overtimeLevel2Minutes := b.overtimeLevel2Minutes,
              totalPay := b.totalPay,
              note := "打卡紀錄" })

/-- The break-minute count of the manual entry form (WorkEntryForm.tsx
lines 30-37): when both break bounds are filled, the clamped duration
between them, otherwise 0. -/
def manualBreakMinutes (breakStartTime breakEndTime : String) : ℤ :=
  if breakStartTime ≠ "" ∧ breakEndTime ≠ ""
  then max 0 (calculateDurationMinutes breakStartTime breakEndTime)
  else 0

/-- Shallow embedding of `handleManualSubmit` together with the
real-time derived values it reads (WorkEntryForm.tsx lines 39-86): the
WorkLog added, or `none` when the submission is rejected. -/
def handleManualSubmit (freshId date startTime endTime breakStartTime breakEndTime : String)
    (hourlyRate : ℚ) (note : String) : Option WorkLog :=
  let breakMinutes := manualBreakMinutes breakStartTime breakEndTime
  let rawDuration := calculateDurationMinutes startTime endTime
  let actualWorkMinutes := max 0 (rawDuration - breakMinutes)
  if actualWorkMinutes ≤ 0 then none
  else
    let b := calculatePayBreakdown actualWorkMinutes hourlyRate
    some { id := freshId,
           date := date,
           startTime := startTime,
           endTime := endTime,
           breakMinutes := breakMinutes,
           breakStartTime := if breakStartTime = "" then none else some breakStartTime,
           breakEndTime := if breakEndTime = "" then none else some breakEndTime,
           hourlyRate := hourlyRate,
           totalMinutes := actualWorkMinutes,
           regularMinutes := b.regularMinutes,
           overtimeLevel1Minutes := b.overtimeLevel1Minutes,
           overtimeLevel2Minutes := b.overtimeLevel2Minutes,
           totalPay := b.totalPay,
           note := note }

/-- Shallow embedding of the session load in `ClockInTimer.tsx` lines
22-48 (remote-sync branch): given the fetched remote session and the
current local cache, the resulting (in-memory session, local cache)
pair.  `getRemoteSession` already maps a cleared basket to `none`; the
component re-checks `startTime > 0`. -/
def loadSession (remoteSession localCache : Option ActiveSession) :
    Option ActiveSession × Option ActiveSession :=
  match remoteSession with
  | some r => if 0 < r.startTime then (some r, some r) else (none, none)
  | none => (none, none)

/-- Day count since 1970-01-01 of a civil date, inverse of
`civilFromDays`; embeds `new Date('YYYY-MM-DD').getTime()` up to the
86400000 factor. -/
def daysFromCivil (y m d : ℤ) : ℤ :=
  let y2 := y - (if m ≤ 2 then 1 else 0)
  let era := y2.fdiv 400
  let yoe := y2 - era * 400
  let doy := (153 * (m + (if 2 < m then -3 else 9)) + 2).fdiv 5 + d - 1
  let doe := yoe * 365 + yoe.fdiv 4 - yoe.fdiv 100 + doy
  era * 146097 + doe - 719468

/-- `new Date(s).getTime()` for an ISO `YYYY-MM-DD` date string, used by
the `sortLogs` comparator. -/
def parseDateMs (s : String) : ℤ :=
  match splitOnChar '-' s.data with
  | [y, m, d] => 86400000 * daysFromCivil (decDigits y) (decDigits m) (decDigits d)
  | _ => 0

/-- The `sortLogs` comparator of src/utils.ts lines 58-64 as a
`Bool`-valued "stays before" relation: date descending, then start time
descending (string comparison). -/
def sortLogsLe (a b : WorkLog) : Bool :=
  let dateComp := parseDateMs b.date - parseDateMs a.date
  if dateComp = 0 then decide (b.startTime ≤ a.startTime) else decide (dateComp < 0)

/-- Shallow embedding of `sortLogs` (src/utils.ts lines 58-64); JS
`Array.prototype.sort` is stable, as is `List.mergeSort`. -/
def sortLogs (logs : List WorkLog) : List WorkLog :=
  logs.mergeSort sortLogsLe

/-- Shallow embedding of `syncData` in `src/App.tsx` lines 60-77: given
the fetched remote log collection and the current local one, the
resulting (local logs, remote logs) pair.  A non-empty remote wins; an
empty remote with non-empty local pushes local to the remote. -/
def syncData (remoteLogs localLogs : List WorkLog) : List WorkLog × List WorkLog :=
  if 0 < remoteLogs.length then (sortLogs remoteLogs, remoteLogs)
  else if 0 < localLogs.length then (localLogs, localLogs)
  else (localLogs, remoteLogs)

/-- Integer weight of a minute count under the tier multipliers scaled
by 100: the exact pre-rounding pay is `rate` times this over 6000. -/
def payWeight (m : ℤ) : ℤ :=
  100 * min m 480 + 134 * min (max 0 (m - 480)) 120 + 167 * max 0 (m - 600)

/-- A concrete log record used to instantiate reconciliation statements. -/
def sampleLog : WorkLog :=
  { id := "w1",
    date := "2026-02-01",
    startTime := "09:00",
    endTime := "18:00",
    breakMinutes := 0,
    breakStartTime := none,
    breakEndTime := none,
    hourlyRate := 100,
    totalMinutes := 540,
    regularMinutes := 480,
    overtimeLevel1Minutes := 60,
    overtimeLevel2Minutes := 0,
    totalPay := 934,
    note := "" }

/-- Rounding half up is monotone. -/
theorem jsRound_mono {x y : ℚ} (h : x ≤ y) : jsRound x ≤ jsRound y :=
  Int.floor_le_floor (by linarith)

/-- For non-negative minutes the computed pay is the weight formula. -/
theorem totalPay_as_weight (m : ℤ) (r : ℚ) (hm : 0 ≤ m) :
    (calculatePayBreakdown m r).totalPay = jsRound (((payWeight m : ℤ) : ℚ) * r / 6000) := by
  dsimp only [calculatePayBreakdown, payWeight]
  have h2 : min (max 0 (m - min m 480)) 120 = min (max 0 (m - 480)) 120 := by omega
  have h3 : max 0 (max 0 (m - min m 480) - min (max 0 (m - min m 480)) 120)
      = max 0 (m - 600) := by omega
  rw [h3, h2]
  congr 1
  push_cast
  ring

/-- C1: for non-negative `totalMinutes` and rate, `calculatePayBreakdown`
splits the minutes exactly into the three tiers: the tiers sum back to
`totalMinutes`, the regular tier is `min(totalMinutes, 480)`, the first
overtime tier is `min` of the remainder and 120, the second overtime
tier is the rest, and every tier is non-negative and within its cap. -/
theorem calculatePayBreakdown_tiers (m : ℤ) (r : ℚ) (hm : 0 ≤ m) (hr : 0 ≤ r) :
    (calculatePayBreakdown m r).regularMinutes
      + (calculatePayBreakdown m r).overtimeLevel1Minutes
      + (calculatePayBreakdown m r).overtimeLevel2Minutes = m ∧
    (calculatePayBreakdown m r).regularMinutes = min m 480 ∧
    (calculatePayBreakdown m r).overtimeLevel1Minutes
      = min (m - (calculatePayBreakdown m r).regularMinutes) 120 ∧
    (calculatePayBreakdown m r).overtimeLevel2Minutes
      = m - (calculatePayBreakdown m r).regularMinutes
          - (calculatePayBreakdown m r).overtimeLevel1Minutes ∧
    0 ≤ (calculatePayBreakdown m r).regularMinutes ∧
    (calculatePayBreakdown m r).regularMinutes ≤ 480 ∧
    0 ≤ (calculatePayBreakdown m r).overtimeLevel1Minutes ∧
    (calculatePayBreakdown m r).overtimeLevel1Minutes ≤ 120 ∧
    0 ≤ (calculatePayBreakdown m r).overtimeLevel2Minutes := by
  dsimp only [calculatePayBreakdown]
  exact ⟨by omega, by omega, by omega, by omega, by omega,
    by omega, by omega, by omega, by omega⟩

/-- Witness for C1 at `totalMinutes = 600`, `rate = 100`. -/
theorem calculatePayBreakdown_tiers_witness :
    (calculatePayBreakdown 600 100).regularMinutes
      + (calculatePayBreakdown 600 100).overtimeLevel1Minutes
      + (calculatePayBreakdown 600 100).overtimeLevel2Minutes = 600 ∧
    (calculatePayBreakdown 600 100).regularMinutes = min 600 480 ∧
    (calculatePayBreakdown 600 100).overtimeLevel1Minutes
      = min (600 - (calculatePayBreakdown 600 100).regularMinutes) 120 ∧
    (calculatePayBreakdown 600 100).overtimeLevel2Minutes
      = 600 - (calculatePayBreakdown 600 100).regularMinutes
          - (calculatePayBreakdown 600 100).overtimeLevel1Minutes ∧
    0 ≤ (calculatePayBreakdown 600 100).regularMinutes ∧
    (calculatePayBreakdown 600 100).regularMinutes ≤ 480 ∧
    0 ≤ (calculatePayBreakdown 600 100).overtimeLevel1Minutes ∧
    (calculatePayBreakdown 600 100).overtimeLevel1Minutes ≤ 120 ∧
    0 ≤ (calculatePayBreakdown 600 100).overtimeLevel2Minutes :=
  calculatePayBreakdown_tiers 600 100 (by norm_num) (by norm_num)

/-- C2: the total pay of `calculatePayBreakdown` equals the spec's
closed formula with a single rounding applied to the summed total (never
per tier), and the spec's two stated values hold:
`computeBreakdown(480, 100).totalPay = 800` and
`computeBreakdown(600, 100).totalPay = 1068`. -/
theorem calculatePayBreakdown_roundOnce :
    (∀ (m : ℤ) (r : ℚ), 0 ≤ m → 0 ≤ r →
      (calculatePayBreakdown m r).totalPay = totalPaySpecFormula m r) ∧
    (calculatePayBreakdown 480 100).totalPay = 800 ∧
    (calculatePayBreakdown 600 100).totalPay = 1068 := by
  refine ⟨?_, ?_, ?_⟩
  · intro m r hm hr
    dsimp only [calculatePayBreakdown, totalPaySpecFormula]
    have h2 : min (max 0 (m - min m 480)) 120 = min (max 0 (m - 480)) 120 := by omega
    have h3 : max 0 (max 0 (m - min m 480) - min (max 0 (m - min m 480)) 120)
        = max 0 (m - 600) := by omega
    rw [h3, h2]
  · norm_num [calculatePayBreakdown, jsRound]
  · norm_num [calculatePayBreakdown, jsRound]

/-- Witness for C2 at `totalMinutes = 700`, `rate = 100`. -/
theorem calculatePayBreakdown_roundOnce_witness :
    (calculatePayBreakdown 700 100).totalPay = totalPaySpecFormula 700 100 :=
  calculatePayBreakdown_roundOnce.1 700 100 (by norm_num) (by norm_num)

/-- C10: for a fixed non-negative rate, total pay is monotone
non-decreasing in the minute count. -/
theorem totalPay_monotone (r : ℚ) (m1 m2 : ℤ) (hr : 0 ≤ r) (h1 : 0 ≤ m1) (h12 : m1 ≤ m2) :
    (calculatePayBreakdown m1 r).totalPay ≤ (calculatePayBreakdown m2 r).totalPay := by
  rw [totalPay_as_weight m1 r h1, totalPay_as_weight m2 r (le_trans h1 h12)]
  apply jsRound_mono
  have hw : payWeight m1 ≤ payWeight m2 := by unfold payWeight; omega
  have hc : ((payWeight m1 : ℤ) : ℚ) ≤ ((payWeight m2 : ℤ) : ℚ) := by exact_mod_cast hw
  have h6 : (0:ℚ) < 6000 := by norm_num
  exact div_le_div_of_nonneg_right (mul_le_mul_of_nonneg_right hc hr) (le_of_lt h6)

/-- Witness for C10 at rate 100 and minutes 480 and 600. -/
theorem totalPay_monotone_witness :
    (calculatePayBreakdown 480 100).totalPay ≤ (calculatePayBreakdown 600 100).totalPay :=
  totalPay_monotone 100 480 600 (by norm_num) (by norm_num) (by norm_num)

/-- C6: `calculateDurationMinutes` matches the two stated examples,
returns 0 when either input is empty, and for well-formed `HH:mm`
inputs gives the non-negative same-day difference with a 1440-minute
(24 h) correction when end precedes start. -/
theorem calculateDurationMinutes_spec :
    calculateDurationMinutes "09:00" "18:00" = 540 ∧
    calculateDurationMinutes "22:00" "06:00" = 480 ∧
    (∀ e, calculateDurationMinutes "" e = 0) ∧
    (∀ s, calculateDurationMinutes s "" = 0) ∧
    (∀ s e, s ≠ "" → e ≠ "" →
      0 ≤ (parseHM s).1 → (parseHM s).1 ≤ 23 → 0 ≤ (parseHM s).2 → (parseHM s).2 ≤ 59 →
      0 ≤ (parseHM e).1 → (parseHM e).1 ≤ 23 → 0 ≤ (parseHM e).2 → (parseHM e).2 ≤ 59 →
      0 ≤ calculateDurationMinutes s e ∧
      calculateDurationMinutes s e =
        (if (parseHM e).1 * 60 + (parseHM e).2 < (parseHM s).1 * 60 + (parseHM s).2
         then (parseHM e).1 * 60 + (parseHM e).2 + 1440
         else (parseHM e).1 * 60 + (parseHM e).2)
        - ((parseHM s).1 * 60 + (parseHM s).2)) := by
  refine ⟨by decide, by decide, ?_, ?_, ?_⟩
  · intro e
    simp [calculateDurationMinutes]
  · intro s
    simp [calculateDurationMinutes]
  · intro s e hs he h1 h2 h3 h4 h5 h6 h7 h8
    have hne : ¬ (s = "" ∨ e = "") := by
      push_neg
      exact ⟨hs, he⟩
    constructor
    · dsimp only [calculateDurationMinutes]
      rw [if_neg hne]
      split <;> omega
    · dsimp only [calculateDurationMinutes]
      rw [if_neg hne]

/-- Witness for C6's universal clause at "09:00" and "18:00". -/
theorem calculateDurationMinutes_spec_witness :
    0 ≤ calculateDurationMinutes "09:00" "18:00" ∧
    calculateDurationMinutes "09:00" "18:00" =
      (if (parseHM "18:00").1 * 60 + (parseHM "18:00").2
          < (parseHM "09:00").1 * 60 + (parseHM "09:00").2
       then (parseHM "18:00").1 * 60 + (parseHM "18:00").2 + 1440
       else (parseHM "18:00").1 * 60 + (parseHM "18:00").2)
      - ((parseHM "09:00").1 * 60 + (parseHM "09:00").2) :=
  calculateDurationMinutes_spec.2.2.2.2 "09:00" "18:00"
    (by decide) (by decide) (by decide) (by decide) (by decide)
    (by decide) (by decide) (by decide) (by decide) (by decide)

/-- C7: `roundToBillingUnit` rounds down to the nearest multiple of the
unit (never up), the spec's three concrete values hold for
`roundTo30Minutes`, and at clock-out the emitted log's `totalMinutes`
is exactly the 30-minute round-down of `rawWorkMinutes`. -/
theorem roundToBillingUnit_spec :
    (∀ raw : ℤ, roundTo30Minutes raw ≤ raw ∧ raw - roundTo30Minutes raw < 30 ∧
      (30 : ℤ) ∣ roundTo30Minutes raw) ∧
    roundTo30Minutes 29 = 0 ∧ roundTo30Minutes 30 = 30 ∧ roundTo30Minutes 59 = 30 ∧
    (∀ (tz : ℤ) (r : ℚ) (id : String) (s : ActiveSession) (now : ℤ) (c : Bool)
      (ns : Option ActiveSession) (log : WorkLog),
      handleClockOut tz r id (some s) now c = (ns, some log) →
      log.totalMinutes = roundTo30Minutes (rawWorkMinutesAt s now)) := by
  refine ⟨?_, by decide, by decide, by decide, ?_⟩
  · intro raw
    have hdiv : roundTo30Minutes raw = raw / 30 * 30 := by
      dsimp only [roundTo30Minutes, roundToBillingUnit]
      rw [Int.fdiv_eq_ediv raw (by norm_num)]
    refine ⟨?_, ?_, ?_⟩
    · rw [hdiv]; omega
    · rw [hdiv]; omega
    · exact ⟨raw.fdiv 30, by dsimp only [roundTo30Minutes, roundToBillingUnit]; ring⟩
  · intro tz r id s now c ns log h
    dsimp only [handleClockOut] at h
    split at h
    · simp at h
    · rw [Prod.mk.injEq, Option.some.injEq] at h
      rw [← h.2]

/-- Witness for C7's clock-out clause at a one-hour working session. -/
theorem roundToBillingUnit_spec_witness :
    ({ id := "x", date := localDateString 0 0, startTime := formatTimeStr 0 0,
       endTime := formatTimeStr 3600000 0, breakMinutes := 0, breakStartTime := none,
       breakEndTime := none, hourlyRate := 100, totalMinutes := 60,
       regularMinutes := (calculatePayBreakdown 60 100).regularMinutes,
       overtimeLevel1Minutes := (calculatePayBreakdown 60 100).overtimeLevel1Minutes,
       overtimeLevel2Minutes := (calculatePayBreakdown 60 100).overtimeLevel2Minutes,
       totalPay := (calculatePayBreakdown 60 100).totalPay,
       note := "打卡紀錄" } : WorkLog).totalMinutes
      = roundTo30Minutes (rawWorkMinutesAt
          { status := SessionStatus.working, startTime := 0,
            breakStartTime := none, accumulatedBreakTime := 0 } 3600000) :=
  roundToBillingUnit_spec.2.2.2.2 0 100 "x"
    { status := SessionStatus.working, startTime := 0,
      breakStartTime := none, accumulatedBreakTime := 0 } 3600000 false none _ (by rfl)

/-- Folding helper: from BREAK with a recorded break start, the
accumulated break at clock-out gains the current break interval. -/
theorem foldedBreak_onBreak (s : ActiveSession) (now bst : ℤ)
    (hst : s.status = SessionStatus.onBreak) (hb : s.breakStartTime = some bst) :
    foldedBreak s now = s.accumulatedBreakTime + (now - bst) := by
  rcases s with ⟨st, t0, b0, acc⟩
  dsimp only at hst hb
  subst hst
  subst hb
  rfl

/-- C3: clock-out proceeds from WORKING and from BREAK alike.  From
BREAK it first folds the in-progress break, measured up to the
clock-out instant, into the accumulated break, and it emits exactly the
same log that an `endBreak` at that same instant followed by clock-out
would; whenever a log is committed it is exactly one log with
`totalMinutes` derived from `rawWorkMinutes =
floor((now - startTime - foldedBreak)/60000)`, `breakMinutes =
floor(foldedBreak/60000)`, `date` the local calendar date of
`startTime`, the fixed timer marker as `note`, and the session cleared
to NONE. -/
theorem handleClockOut_spec :
    (∀ (s : ActiveSession) (now bst : ℤ),
      s.status = SessionStatus.onBreak → s.breakStartTime = some bst →
      foldedBreak s now = s.accumulatedBreakTime + (now - bst)) ∧
    (∀ (tz : ℤ) (r : ℚ) (id : String) (s : ActiveSession) (now bst : ℤ) (c : Bool),
      s.status = SessionStatus.onBreak → s.breakStartTime = some bst →
      (handleClockOut tz r id (some s) now c).2
        = (handleClockOut tz r id (handleEndBreak (some s) now) now c).2) ∧
    (∀ (tz : ℤ) (r : ℚ) (id : String) (s : ActiveSession) (now : ℤ) (c : Bool),
      0 < roundTo30Minutes (rawWorkMinutesAt s now) ∨ c = true →
      ∃ log : WorkLog,
        handleClockOut tz r id (some s) now c = (none, some log) ∧
        log.totalMinutes = roundTo30Minutes (rawWorkMinutesAt s now) ∧
        log.breakMinutes = (foldedBreak s now).fdiv 60000 ∧
        log.date = localDateString s.startTime tz ∧
        log.note = "打卡紀錄") := by
  refine ⟨foldedBreak_onBreak, ?_, ?_⟩
  · intro tz r id s now bst c hst hb
    rcases s with ⟨st, t0, b0, acc⟩
    dsimp only at hst hb
    subst hst
    subst hb
    simp only [handleEndBreak, handleClockOut, foldedBreak, rawWorkMinutesAt]
    split <;> rfl
  · intro tz r id s now c h
    dsimp only [handleClockOut]
    rw [if_neg ?hcond]
    case hcond =>
      rcases h with h | h
      · intro hc
        omega
      · subst h
        simp
    exact ⟨_, rfl, rfl, rfl, rfl, rfl⟩

/-- Witness for C3 at a one-hour working session clock-out. -/
theorem handleClockOut_spec_witness :
    ∃ log : WorkLog,
      handleClockOut 0 100 "x"
        (some { status := SessionStatus.working, startTime := 0,
                breakStartTime := none, accumulatedBreakTime := 0 }) 3600000 false
        = (none, some log) ∧
      log.totalMinutes = roundTo30Minutes (rawWorkMinutesAt
        { status := SessionStatus.working, startTime := 0,
          breakStartTime := none, accumulatedBreakTime := 0 } 3600000) ∧
      log.breakMinutes = (foldedBreak
        { status := SessionStatus.working, startTime := 0,
          breakStartTime := none, accumulatedBreakTime := 0 } 3600000).fdiv 60000 ∧
      log.date = localDateString 0 0 ∧
      log.note = "打卡紀錄" :=
  handleClockOut_spec.2.2 0 100 "x"
    { status := SessionStatus.working, startTime := 0,
      breakStartTime := none, accumulatedBreakTime := 0 } 3600000 false
    (Or.inl (by decide))

/-- C4 counterexample: `handleStartBreak` invoked from BREAK is not a
no-op — the source only guards on session existence, so it resets
`breakStartTime` to the new instant instead of rejecting. -/
theorem handleStartBreak_from_break_changes :
    ¬ (handleStartBreak
        (some { status := SessionStatus.onBreak, startTime := 0,
                breakStartTime := some 100, accumulatedBreakTime := 0 }) 200
      = some { status := SessionStatus.onBreak, startTime := 0,
               breakStartTime := some 100, accumulatedBreakTime := 0 }) := by
  decide

/-- C4 amended: clock-in with an existing session is rejected and
leaves the session unchanged (so a second consecutive clock-in is a
no-op), `startBreak` and `endBreak` are rejected with no session, and
`endBreak` is rejected when no break is in progress; but `startBreak`
is rejected only when no session exists — from any existing session,
BREAK included, it sets status BREAK and restarts `breakStartTime` at
the current instant. -/
theorem session_transitions_amended :
    (∀ (s : ActiveSession) (now : ℤ), handleClockIn (some s) now = some s) ∧
    (∀ n1 n2 : ℤ, handleClockIn (handleClockIn none n1) n2 = handleClockIn none n1) ∧
    (∀ now : ℤ, handleStartBreak none now = none) ∧
    (∀ (s : ActiveSession) (now : ℤ),
      handleStartBreak (some s) now
        = some { s with status := SessionStatus.onBreak, breakStartTime := some now }) ∧
    (∀ now : ℤ, handleEndBreak none now = none) ∧
    (∀ (s : ActiveSession) (now : ℤ), s.breakStartTime = none →
      handleEndBreak (some s) now = some s) := by
  refine ⟨fun s now => rfl, fun n1 n2 => rfl, fun now => rfl,
    fun s now => rfl, fun now => rfl, ?_⟩
  intro s now h
  rcases s with ⟨st, t0, b0, acc⟩
  dsimp only at h
  subst h
  rfl

/-- Witness for C4's amended claim: `endBreak` on a working session with
no break in progress is a no-op. -/
theorem session_transitions_amended_witness :
    handleEndBreak
      (some { status := SessionStatus.working, startTime := 0,
              breakStartTime := none, accumulatedBreakTime := 0 }) 5
    = some { status := SessionStatus.working, startTime := 0,
             breakStartTime := none, accumulatedBreakTime := 0 } :=
  session_transitions_amended.2.2.2.2.2
    { status := SessionStatus.working, startTime := 0,
      breakStartTime := none, accumulatedBreakTime := 0 } 5 rfl

/-- C5 counterexample: for the log collection, an explicitly empty
remote does not clear a non-empty local copy — `syncData` keeps the
local logs (and pushes them to the remote), unlike the session
resource. -/
theorem syncData_empty_remote_keeps_local :
    ¬ ((syncData [] [sampleLog]).1 = []) := by
  simp [syncData, sampleLog]

/-- C5 amended: the two replicated resources do not share one policy.
For the session, a present remote (positive `startTime`) overwrites the
local cache, and an absent or cleared remote clears it.  For the log
collection, a non-empty remote overwrites local (sorted), but an empty
remote with a non-empty local leaves local intact and pushes it to the
remote; only when both are empty is nothing changed. -/
theorem reconciliation_amended :
    (∀ (r : ActiveSession) (l : Option ActiveSession),
      0 < r.startTime → loadSession (some r) l = (some r, some r)) ∧
    (∀ (r : ActiveSession) (l : Option ActiveSession),
      r.startTime ≤ 0 → loadSession (some r) l = (none, none)) ∧
    (∀ l : Option ActiveSession, loadSession none l = (none, none)) ∧
    (∀ rl ll : List WorkLog, rl ≠ [] → syncData rl ll = (sortLogs rl, rl)) ∧
    (∀ ll : List WorkLog, ll ≠ [] → syncData [] ll = (ll, ll)) ∧
    syncData ([] : List WorkLog) ([] : List WorkLog) = ([], []) := by
  refine ⟨?_, ?_, fun l => rfl, ?_, ?_, rfl⟩
  · intro r l h
    simp [loadSession, h]
  · intro r l h
    simp [loadSession]
    omega
  · intro rl ll h
    have : 0 < rl.length := List.length_pos.mpr h
    simp [syncData, this]
  · intro ll h
    have : 0 < ll.length := List.length_pos.mpr h
    simp [syncData, this]

/-- Witness for C5's amended claim: an empty remote log collection with
one local log leaves the local log in place and seeds the remote. -/
theorem reconciliation_amended_witness :
    syncData [] [sampleLog] = ([sampleLog], [sampleLog]) :=
  reconciliation_amended.2.2.2.2.1 [sampleLog] (by simp)

/-- C8: every log committed by the manual entry path carries
`totalMinutes = max(0, durationMinutes(start, end) - breakMinutes)`
with no 30-minute billing rounding; a 29-minute manual entry is saved
as 29 minutes, where the timer rounding would give 0. -/
theorem manual_entry_no_rounding :
    (∀ (id date sT eT bS bE : String) (r : ℚ) (note : String) (log : WorkLog),
      handleManualSubmit id date sT eT bS bE r note = some log →
      log.totalMinutes = max 0 (calculateDurationMinutes sT eT - manualBreakMinutes bS bE)) ∧
    (∃ log : WorkLog,
      handleManualSubmit "i" "2026-02-01" "09:00" "09:29" "" "" 100 "" = some log ∧
      log.totalMinutes = 29 ∧ roundTo30Minutes 29 = 0) := by
  constructor
  · intro id date sT eT bS bE r note log h
    dsimp only [handleManualSubmit] at h
    split at h
    · exact absurd h (by simp)
    · rw [Option.some.injEq] at h
      rw [← h]
  · exact ⟨_, rfl, by decide, by decide⟩

/-- Witness for C8's universal clause at the 29-minute manual entry. -/
theorem manual_entry_no_rounding_witness :
    ({ id := "j", date := "2026-02-01", startTime := "10:00", endTime := "10:29",
       breakMinutes := 0, breakStartTime := none, breakEndTime := none,
       hourlyRate := 100, totalMinutes := 29,
       regularMinutes := (calculatePayBreakdown 29 100).regularMinutes,
       overtimeLevel1Minutes := (calculatePayBreakdown 29 100).overtimeLevel1Minutes,
       overtimeLevel2Minutes := (calculatePayBreakdown 29 100).overtimeLevel2Minutes,
       totalPay := (calculatePayBreakdown 29 100).totalPay,
       note := "" } : WorkLog).totalMinutes
      = max 0 (calculateDurationMinutes "10:00" "10:29" - manualBreakMinutes "" "") :=
  manual_entry_no_rounding.1 "j" "2026-02-01" "10:00" "10:29" "" "" 100 "" _ (by rfl)

/-- C9: when the computed payable minutes are not positive, the manual
path rejects the submission outright (no log), while the timer path
without user confirmation commits nothing and leaves the session in
place, and with confirmation commits exactly one (non-positive-minute,
hence zero-pay) log. -/
theorem zero_duration_outcomes :
    (∀ (id date sT eT bS bE : String) (r : ℚ) (note : String),
      max 0 (calculateDurationMinutes sT eT - manualBreakMinutes bS bE) ≤ 0 →
      handleManualSubmit id date sT eT bS bE r note = none) ∧
    (∀ (tz : ℤ) (r : ℚ) (id : String) (s : ActiveSession) (now : ℤ),
      roundTo30Minutes (rawWorkMinutesAt s now) ≤ 0 →
      handleClockOut tz r id (some s) now false = (some s, none) ∧
      (∃ log : WorkLog,
        handleClockOut tz r id (some s) now true = (none, some log) ∧
        log.totalMinutes ≤ 0)) := by
  constructor
  · intro id date sT eT bS bE r note h
    dsimp only [handleManualSubmit]
    rw [if_pos h]
  · intro tz r id s now h
    constructor
    · dsimp only [handleClockOut]
      rw [if_pos ⟨h, rfl⟩]
    · dsimp only [handleClockOut]
      rw [if_neg (by simp)]
      exact ⟨_, rfl, h⟩

/-- Witness for C9: a same-instant manual entry is rejected, and a
one-minute timer session commits nothing without confirmation but
commits a zero-minute log with it. -/
theorem zero_duration_outcomes_witness :
    handleManualSubmit "i" "2026-02-02" "09:00" "09:00" "" "" 100 "" = none ∧
    (handleClockOut 0 100 "x"
        (some { status := SessionStatus.working, startTime := 0,
                breakStartTime := none, accumulatedBreakTime := 0 }) 60000 false
      = (some { status := SessionStatus.working, startTime := 0,
                breakStartTime := none, accumulatedBreakTime := 0 }, none) ∧
      ∃ log : WorkLog,
        handleClockOut 0 100 "x"
          (some { status := SessionStatus.working, startTime := 0,
                  breakStartTime := none, accumulatedBreakTime := 0 }) 60000 true
          = (none, some log) ∧ log.totalMinutes ≤ 0) :=
  ⟨zero_duration_outcomes.1 "i" "2026-02-02" "09:00" "09:00" "" "" 100 "" (by decide),
   zero_duration_outcomes.2 0 100 "x"
     { status := SessionStatus.working, startTime := 0,
       breakStartTime := none, accumulatedBreakTime := 0 } 60000 (by decide)⟩
